import Mathlib

/-!
Shallow embedding of the analytical core of the `python_pangeo_ams2021`
notebooks (notebook `02_Pangeo_CMIP6.ipynb`): the cosine-weighted global-mean
spatial reducer (`get_lat_name`, `global_mean`), the per-model alignment loop,
the control-run baseline subtraction (`ds_anom`), and the Gregory-method
equilibrium-climate-sensitivity estimator (`calc_ecs`).

Numeric values are modelled as rationals; a NaN-able series is a list of
`Option ℚ` (`none` is NaN).  The transcendental map `cos ∘ deg2rad` applied to
latitude coordinates is kept as an abstract parameter `cosRad : ℚ → ℚ`, since
its exact values never matter to the properties below — only the normalization
arithmetic built on top of it does.
-/

deriving instance DecidableEq for Except

namespace Pangeo

/-- Arithmetic mean of a list, `xs.mean()`.  As in the rational model division
by zero yields 0 for an empty list. -/
def qmean (xs : List ℚ) : ℚ := xs.sum / (xs.length : ℚ)

/-- `da.dropna(dim)` on a one-dimensional series: remove the undefined (NaN)
entries, keeping the defined values in order. -/
def dropna (xs : List (Option ℚ)) : List ℚ := xs.filterMap id

/-- Result of an IEEE-style division as produced by numpy: a finite value, a
signed infinity, or NaN.  Only exact rational inputs occur in this
development, so this four-way split captures numpy's behaviour precisely. -/
inductive PyFloat where
  | val (q : ℚ)
  | posInf
  | negInf
  | nan
deriving DecidableEq, Repr

/-- numpy float division `b / a`: finite quotient when `a ≠ 0`, otherwise a
signed infinity (or NaN for `0 / 0`), with a RuntimeWarning — never an
exception. -/
def npDiv (b a : ℚ) : PyFloat :=
  if a ≠ 0 then .val (b / a)
  else if 0 < b then .posInf
  else if b < 0 then .negInf
  else .nan

/-- Multiplication of a numpy float by the finite constant `-0.5`, as in
`ecs = -0.5 * (b/a)`. -/
def negHalfMul : PyFloat → PyFloat
  | .val q => .val (-(1/2) * q)
  | .posInf => .negInf
  | .negInf => .posInf
  | .nan => .nan

/-- `np.polyfit(x, y, 1)`: ordinary least-squares degree-1 fit, returning
`(slope a, intercept b)` with `y ≈ a*x + b`.

Branches, following numpy:
* mismatched lengths or an empty `x` raise a `TypeError`;
* a nonsingular system (`n·Σx² - (Σx)² ≠ 0`) has the unique least-squares
  solution of the normal equations (numpy's internal column scaling is an
  exact reparametrisation and does not change this solution);
* a singular system means all `x` equal a common value `c`; for `c ≠ 0`
  numpy's scaled `lstsq` returns the minimum-norm solution of the scaled
  system, which unscales to `a = ȳ/(2c)`, `b = ȳ/2`; for `c = 0` the column
  scale is zero and `lstsq` fails (`LinAlgError`). -/
def polyfit1 (xs ys : List ℚ) : Except String (ℚ × ℚ) :=
  if xs.length ≠ ys.length then
    .error "TypeError: expected x and y to have same length"
  else if xs.length = 0 then
    .error "TypeError: expected non-empty vector for x"
  else
    let n : ℚ := (xs.length : ℚ)
    let sx := xs.sum
    let sy := ys.sum
    let sxx := (xs.map (fun v => v * v)).sum
    let sxy := (List.zipWith (fun u v => u * v) xs ys).sum
    let d := n * sxx - sx * sx
    if d = 0 then
      let c := xs.headD 0
      if c = 0 then
        .error "LinAlgError: SVD did not converge in Linear Least Squares"
      else
        .ok (sy / n / (2 * c), sy / n / 2)
    else
      .ok ((n * sxy - sx * sy) / d, (sy * sxx - sx * sxy) / d)

/-- The pair of sequences the source hands to `np.polyfit`:
`ds.tas.dropna("year")` and `ds.imbalance.dropna("year")` — each series has
its NaN indices dropped independently of the other. -/
def fitInputs (tas imbalance : List (Option ℚ)) : List ℚ × List ℚ :=
  (dropna tas, dropna imbalance)

/-- `calc_ecs`: fit `imbalance` against `tas` after per-series NaN removal and
return `-0.5 * (b/a)`.  An `Except.error` models a propagating Python
exception; a non-finite `PyFloat` is an ordinary return value. -/
def calc_ecs (tas imbalance : List (Option ℚ)) : Except String PyFloat := do
  let ab ← polyfit1 (fitInputs tas imbalance).1 (fitInputs tas imbalance).2
  return negHalfMul (npDiv ab.2 ab.1)

/-- Modelled from the spec: the symmetric missing-value policy the spec
describes for the estimator — a year index is dropped from BOTH sequences
exactly when either value there is undefined, keeping paired observations
only.  (For comparison with `fitInputs`, which is what the code does.) -/
def pairedDrop (tas imbalance : List (Option ℚ)) : List ℚ × List ℚ :=
  let ps := (List.zip tas imbalance).filterMap
    (fun p => match p with
      | (some x, some y) => some (x, y)
      | _ => none)
  (ps.map Prod.fst, ps.map Prod.snd)

/-- Weight construction of `global_mean` at the level of the latitude
coordinate list: `weight = np.cos(np.deg2rad(lat)); weight /= weight.mean()`,
with `cosRad` the abstract `cos ∘ deg2rad`. -/
def mkWeight (cosRad : ℚ → ℚ) (lats : List ℚ) : List ℚ :=
  let w := lats.map cosRad
  w.map (fun x => x / qmean w)

/-- An index assignment: for every axis name, a position along that axis.
A value of a labeled multi-dimensional array is addressed by such an
assignment (axes absent from the array simply ignore their entry). -/
def Ix : Type := String → Nat

/-- Overwrite the position of one axis in an index assignment. -/
def Ix.update (idx : Ix) (d : String) (i : Nat) : Ix :=
  fun n => if n = d then i else idx n

/-- A LabeledField (an `xarray` Dataset/DataArray as used by the notebook):
dimension names, an extent for each dimension, named coordinate sequences
(a coordinate whose name is a dimension runs along it; one whose name is not
is a scalar coordinate, held as a singleton list), and the numeric data,
addressed by index assignment. -/
@[ext]
structure Field where
  dims : List String
  size : String → Nat
  coords : List (String × List ℚ)
  data : Ix → ℚ

/-- `get_lat_name(ds)`: the source's loop
`for lat_name in ['lat', 'latitude']: if lat_name in ds.coords: return lat_name`
unrolled over its two-element literal list, with the final
`raise RuntimeError("Couldn't find a latitude coordinate")`. -/
def get_lat_name (ds : Field) : Except String String :=
  if "lat" ∈ ds.coords.map Prod.fst then .ok "lat"
  else if "latitude" ∈ ds.coords.map Prod.fst then .ok "latitude"
  else .error "Couldn't find a latitude coordinate"

/-- Arithmetic mean of the data over a list of dimensions, by iterated
averaging (exact arithmetic makes the iterated mean over independent axes
equal numpy's flat mean over the same axes); the mean over an empty
dimension list leaves the data unchanged, as `np.mean` with `axis=()` does. -/
def meanData (size : String → Nat) (data : Ix → ℚ) : List String → Ix → ℚ
  | [], idx => data idx
  | d :: rest, idx =>
      ((List.range (size d)).map
        (fun i => meanData size data rest (idx.update d i))).sum / ((size d : ℚ))

/-- `ds.mean(red)`: reduce a field over the named dimensions.  The reduced
dimensions disappear, and the coordinates running along them are dropped
(scalar coordinates survive), as in `xarray`. -/
def meanOver (f : Field) (red : List String) : Field :=
  { dims := f.dims.filter (fun d => decide (d ∉ red))
    size := f.size
    coords := f.coords.filter (fun c => decide (c.1 ∉ red))
    data := meanData f.size f.data red }

/-- `ds * weight`: broadcast multiplication by the (normalized) latitude
weight vector — along the latitude dimension when the latitude coordinate is
dimensional, by the single scalar weight when it is a scalar coordinate. -/
def mulWeight (f : Field) (latName : String) (w : List ℚ) : Field :=
  { f with data := fun idx =>
      f.data idx * w.getD (if latName ∈ f.dims then idx latName else 0) 0 }

/-- `global_mean(ds)`: resolve the latitude coordinate, build the normalized
cosine weight (`mkWeight`), multiply it in, and take the mean over
`set(ds.dims) - {'time'}`. -/
def global_mean (cosRad : ℚ → ℚ) (ds : Field) : Except String Field :=
  match get_lat_name ds with
  | .error e => .error e
  | .ok latName =>
      let w := mkWeight cosRad ((ds.coords.lookup latName).getD [])
      let other := ds.dims.filter (fun d => decide (d ≠ "time"))
      .ok (meanOver (mulWeight ds latName w) other)

/-- A time-only series carrying no latitude coordinate at all — what the
reducer itself produces from a (time, lat, lon) field, since the latitude
coordinate is dropped with the reduced latitude dimension. -/
def seriesNoLat : Field :=
  { dims := ["time"]
    size := fun _ => 2
    coords := [("time", [0, 1])]
    data := fun idx => (idx "time" : ℚ) }

/-- A time-only series that still carries a scalar latitude coordinate. -/
def seriesWithLat : Field :=
  { dims := ["time"]
    size := fun _ => 1
    coords := [("lat", [60])]
    data := fun _ => 7 }

/-- A field whose temporal axis is named `year` rather than `time`, with a
dimensional latitude coordinate. -/
def fieldYearLat : Field :=
  { dims := ["year", "lat"]
    size := fun _ => 2
    coords := [("lat", [0, 60]), ("year", [0, 1])]
    data := fun idx => (idx "year" : ℚ) + (idx "lat" : ℚ) }

/-- A field whose only recognized coordinate is named `latitude`. -/
def latOnlyField : Field :=
  { dims := []
    size := fun _ => 0
    coords := [("latitude", [0])]
    data := fun _ => 0 }

/-- The body of the `dsets_aligned` loop applied to one model: skip (with the
report `print(f"Missing experiment for {k}")`, collected in the second
component) when any experiment dataset is `None`, otherwise run the
per-model pipeline and record its result under the model's name.  The
datasets and the pipeline (`year` re-indexing, `global_mean`, annual
coarsening, `xr.concat`) are abstracted as `α` and `process`, since the
loop's control flow never inspects them. -/
def alignStep {α β : Type} (process : List α → β)
    (acc : List (String × β) × List String) (m : String × List (Option α)) :
    List (String × β) × List String :=
  if m.2.any (fun d => d.isNone) then
    (acc.1, acc.2 ++ ["Missing experiment for " ++ m.1])
  else
    (acc.1 ++ [(m.1, process (m.2.filterMap id))], acc.2)

/-- The `dsets_aligned` loop: fold the per-model step over the entries of
`dsets_` (model name paired with `v.values()`, a dataset being `none` when
`open_dsets` could not produce that experiment), starting from an empty
result dictionary and an empty report log. -/
def dsets_aligned_loop {α β : Type} (process : List α → β)
    (models : List (String × List (Option α))) :
    List (String × β) × List String :=
  models.foldl (alignStep process) ([], [])

/-- The two per-model variables the anomaly stage works on:
`experiment_id → year series` for `tas` and for `imbalance`. -/
structure ModelSeries where
  tas : String → List ℚ
  imbalance : String → List ℚ
deriving Inhabited

/-- The anomaly computation for a single model:
`ds_mean = ...sel(experiment_id='piControl').mean(dim='year')` and
`ds_anom = ... - ds_mean`, broadcast over the `year` and `experiment_id`
axes — the baseline is the model's own piControl mean. -/
def ds_anom_one (m : ModelSeries) : ModelSeries :=
  { tas := fun e => (m.tas e).map (fun v => v - qmean (m.tas "piControl"))
    imbalance := fun e =>
      (m.imbalance e).map (fun v => v - qmean (m.imbalance "piControl")) }

/-- `ds_anom` across the `source_id` axis of `big_ds`: the anomaly of every
model, each computed from that model's own data alone. -/
def ds_anom (models : List (String × ModelSeries)) : List (String × ModelSeries) :=
  models.map (fun m => (m.1, ds_anom_one m.2))

/-- Concrete model runs used by witnesses. -/
def runsA : ModelSeries := { tas := fun _ => [1, 3], imbalance := fun _ => [2] }

/-- Second concrete model runs used by witnesses. -/
def runsB : ModelSeries := { tas := fun _ => [5], imbalance := fun _ => [7, 9] }

/-- A heap of numpy arrays: a reference is an index into the store. -/
abbrev Store (α : Type) : Type := List (List α)

/-- Read the array a reference designates. -/
def readArr {α : Type} (st : Store α) (r : Nat) : List α := (st[r]?).getD []

/-- Allocate a fresh array (what every non-in-place numpy operation does),
returning the new store and the fresh reference. -/
def alloc {α : Type} (st : Store α) (v : List α) : Store α × Nat :=
  (st ++ [v], st.length)

/-- Overwrite the array a reference designates in place (numpy's `/=`). -/
def writeArr {α : Type} (st : Store α) (r : Nat) (v : List α) : Store α :=
  st.set r v

/-- `global_mean` with its numpy allocation discipline made explicit.  The
input dataset is a backing data array and a latitude coordinate array held
in the store; `np.cos(np.deg2rad(lat))` allocates a fresh weight array,
`weight /= weight.mean()` overwrites that fresh array in place,
`(ds * weight)` and `.mean(other_dims)` allocate fresh arrays.  The
value-level content of the broadcast product and of the axis reduction is
abstracted (`mulArr`, `meanArr`): only who writes where matters here. -/
def global_mean_st (cosRad : ℚ → ℚ)
    (mulArr : List ℚ → List ℚ → List ℚ) (meanArr : List ℚ → List ℚ)
    (st : Store ℚ) (dataRef latRef : Nat) : Store ℚ × Nat :=
  let lat := readArr st latRef
  let a1 := alloc st (lat.map cosRad)
  let w := readArr a1.1 a1.2
  let st2 := writeArr a1.1 a1.2 (w.map (fun x => x / qmean w))
  let a2 := alloc st2 (mulArr (readArr st2 dataRef) (readArr st2 a1.2))
  alloc a2.1 (meanArr (readArr a2.1 a2.2))

/-- `calc_ecs` with its numpy allocation discipline made explicit: each
`dropna` allocates a fresh array and nothing is ever written in place; the
returned scalar is a pure function of what the two fresh arrays hold. -/
def calc_ecs_st (st : Store (Option ℚ)) (tasRef imbRef : Nat) :
    Store (Option ℚ) × Except String PyFloat :=
  let a1 := alloc st ((dropna (readArr st tasRef)).map some)
  let a2 := alloc a1.1 ((dropna (readArr a1.1 imbRef)).map some)
  (a2.1,
    match polyfit1 (dropna (readArr a2.1 a1.2)) (dropna (readArr a2.1 a2.2)) with
    | .error e => .error e
    | .ok ab => .ok (negHalfMul (npDiv ab.2 ab.1)))

/-- Dividing every entry of a list by a constant divides the sum by it. -/
theorem sum_map_div (l : List ℚ) (c : ℚ) :
    (l.map (fun x => x / c)).sum = l.sum / c := by
  induction l with
  | nil => simp
  | cons a t ih => simp [ih, add_div]

/-- A key that `List.lookup` finds is among the keys of the association
list. -/
theorem lookup_mem_keys {k : String} {v : List ℚ} :
    ∀ l : List (String × List ℚ), l.lookup k = some v → k ∈ l.map Prod.fst := by
  intro l h
  induction l with
  | nil => simp [List.lookup] at h
  | cons a t ih =>
      obtain ⟨k1, v1⟩ := a
      rw [List.lookup] at h
      by_cases hk : k = k1
      · simp [hk]
      · right
        apply ih
        simpa [beq_false_of_ne hk] using h

/-- Unrolling the alignment fold from an arbitrary accumulator: results and
reports accumulate in order, results from the models with all experiments
present, reports from the models with a missing experiment. -/
theorem alignStep_foldl {α β : Type} (process : List α → β) :
    ∀ (models : List (String × List (Option α))) (acc : List (String × β) × List String),
    models.foldl (alignStep process) acc
      = (acc.1 ++ (models.filter (fun m => !(m.2.any (fun d => d.isNone)))).map
            (fun m => (m.1, process (m.2.filterMap id))),
         acc.2 ++ (models.filter (fun m => m.2.any (fun d => d.isNone))).map
            (fun m => "Missing experiment for " ++ m.1)) := by
  intro models
  induction models with
  | nil => intro acc; simp
  | cons m t ih =>
      intro acc
      rw [List.foldl_cons, ih]
      by_cases h : m.2.any (fun d => d.isNone) <;>
        simp [alignStep, h, List.filter_cons]

/-- Reading below a fresh allocation sees the old store. -/
theorem readArr_alloc_lt {α : Type} (st : Store α) (v : List α) (r : Nat)
    (h : r < st.length) : readArr (st ++ [v]) r = readArr st r := by
  unfold readArr
  rw [List.getElem?_append_left h]

/-- Reading a fresh allocation returns the allocated array. -/
theorem readArr_alloc_self {α : Type} (st : Store α) (v : List α) :
    readArr (st ++ [v]) st.length = v := by
  unfold readArr
  rw [List.getElem?_concat_length]
  rfl

/-- An in-place write to one reference leaves every other reference's array
unchanged. -/
theorem readArr_write_ne {α : Type} (st : Store α) (r s : Nat) (v : List α)
    (h : s ≠ r) : readArr (writeArr st s v) r = readArr st r := by
  unfold readArr writeArr
  rw [List.getElem?_set_ne h]

/-- `dropna` recovers the values of an all-defined series. -/
theorem dropna_map_some (xs : List ℚ) : dropna (xs.map some) = xs := by
  simp [dropna]

/-- The reducer's heap shape — allocate, write the fresh array in place,
allocate twice more — leaves every pre-existing reference unchanged. -/
theorem readArr_gm_chain {α : Type} (st : Store α) (v w p m : List α) (r : Nat)
    (h : r < st.length) :
    readArr (((writeArr (st ++ [v]) st.length w) ++ [p]) ++ [m]) r = readArr st r := by
  have h3 : r < ((writeArr (st ++ [v]) st.length w) ++ [p]).length := by
    simp [writeArr]
    omega
  have h2 : r < (writeArr (st ++ [v]) st.length w).length := by
    simp [writeArr]
    omega
  rw [readArr_alloc_lt _ _ _ h3, readArr_alloc_lt _ _ _ h2,
    readArr_write_ne _ _ _ _ (by omega), readArr_alloc_lt _ _ _ h]

/-- Evaluating `global_mean` once a latitude name has been resolved. -/
theorem global_mean_ok (cosRad : ℚ → ℚ) (ds : Field) (latName : String)
    (h : get_lat_name ds = .ok latName) :
    global_mean cosRad ds =
      .ok (meanOver
        (mulWeight ds latName (mkWeight cosRad ((ds.coords.lookup latName).getD [])))
        (ds.dims.filter (fun d => decide (d ≠ "time")))) := by
  rw [global_mean, h]

end Pangeo

open Pangeo

/-- Claim C1, counterexample.  The source drops NaN indices independently per
sequence (`tas.dropna`, `imbalance.dropna`), so on the spec's example the fit
is handed the 3-point misaligned lists `([1,3,4], [2,5,8])`, not the
symmetric 2-point paired selection `([1,4], [2,8])` at indices {0, 3} that
the claim requires. -/
theorem C1_counterexample :
    fitInputs [some 1, none, some 3, some 4] [some 2, some 5, none, some 8]
        = ([1, 3, 4], [2, 5, 8]) ∧
    pairedDrop [some 1, none, some 3, some 4] [some 2, some 5, none, some 8]
        = ([1, 4], [2, 8]) ∧
    fitInputs [some 1, none, some 3, some 4] [some 2, some 5, none, some 8]
        ≠ pairedDrop [some 1, none, some 3, some 4] [some 2, some 5, none, some 8] ∧
    (fitInputs [some 1, none, some 3, some 4]
        [some 2, some 5, none, some 8]).1.length = 3 := by
  refine ⟨?_, ?_, ?_, ?_⟩ <;>
    norm_num [fitInputs, pairedDrop, dropna, List.filterMap_cons]

/-- Claim C1, amended: each sequence has its undefined indices dropped
independently of the other; on `tas = [1, NaN, 3, 4]`,
`imbalance = [2, 5, NaN, 8]` the regression therefore runs on the three
misaligned pairs (1,2), (3,5), (4,8) — not on the two paired indices {0, 3} —
and the estimator returns 1/27. -/
theorem C1_amended :
    fitInputs [some 1, none, some 3, some 4] [some 2, some 5, none, some 8]
        = ([1, 3, 4], [2, 5, 8]) ∧
    calc_ecs [some 1, none, some 3, some 4] [some 2, some 5, none, some 8]
        = .ok (.val (1/27)) := by
  refine ⟨?_, ?_⟩ <;>
    norm_num [calc_ecs, fitInputs, dropna, polyfit1, npDiv, negHalfMul,
      List.filterMap_cons, Except.map]

/-- Claim C2, counterexample.  `calc_ecs` contains no degeneracy check: on
`tas = [0,1,2,3]`, `imbalance = [5,5,5,5]` the fitted slope is exactly 0 and
the estimator RETURNS the non-finite value `-inf` (numpy division by zero)
instead of failing; on the single valid pair `(2, 6)` it returns the value
`-1` computed from numpy's minimum-norm fit. No `DegenerateFitError` exists
anywhere in the code. -/
theorem C2_counterexample :
    polyfit1 [0, 1, 2, 3] [5, 5, 5, 5] = .ok (0, 5) ∧
    calc_ecs [some 0, some 1, some 2, some 3] [some 5, some 5, some 5, some 5]
        = .ok .negInf ∧
    calc_ecs [some 2] [some 6] = .ok (.val (-1)) := by
  refine ⟨?_, ?_, ?_⟩ <;>
    norm_num [calc_ecs, fitInputs, dropna, polyfit1, npDiv, negHalfMul,
      List.filterMap_cons, Except.map]

/-- Claim C2, amended: the estimator performs no degeneracy handling at all.
A fit whose slope is exactly zero silently yields a non-finite value (here
`-0.5 * (5/0) = -inf`), and a single valid observation pair yields the value
of numpy's rank-deficient least-squares fit (here `-1`); neither raises a
`DegenerateFitError`. -/
theorem C2_amended :
    calc_ecs [some 0, some 1, some 2, some 3] [some 5, some 5, some 5, some 5]
        = .ok .negInf ∧
    calc_ecs [some 2] [some 6] = .ok (.val (-1)) ∧
    (∀ e, calc_ecs [some 0, some 1, some 2, some 3]
        [some 5, some 5, some 5, some 5] ≠ .error e) := by
  have hval : calc_ecs [some 0, some 1, some 2, some 3]
      [some 5, some 5, some 5, some 5] = .ok .negInf := by
    norm_num [calc_ecs, fitInputs, dropna, polyfit1, npDiv, negHalfMul,
      List.filterMap_cons, Except.map]
  refine ⟨hval, ?_, fun e h => ?_⟩
  · norm_num [calc_ecs, fitInputs, dropna, polyfit1, npDiv, negHalfMul,
      List.filterMap_cons, Except.map]
  · rw [hval] at h
    exact Except.noConfusion h

/-- Claim C3: on the exact line `imbalance = 4 - 2*tas` sampled at
`tas = [0,1,2,3]`, the fit returns slope `-2` and intercept `4`, and the
estimator returns `-0.5 * (4 / -2) = 1`. -/
theorem C3_regression_end_to_end :
    polyfit1 [0, 1, 2, 3] [4, 2, 0, -2] = .ok (-2, 4) ∧
    calc_ecs [some 0, some 1, some 2, some 3] [some 4, some 2, some 0, some (-2)]
        = .ok (.val 1) := by
  refine ⟨?_, ?_⟩
  · norm_num [polyfit1]
  · norm_num [calc_ecs, fitInputs, dropna, polyfit1, npDiv, negHalfMul,
      List.filterMap_cons, Except.map]

/-- Claim C4: the normalized cosine-latitude weight vector
`w / mean w` has mean exactly 1, for every nonempty latitude sequence whose
raw cosine weights do not average to zero (true of every sequence of real
latitudes, whose cosines are nonnegative and, away from the poles,
positive). -/
theorem C4_weight_mean_one (cosRad : ℚ → ℚ) (lats : List ℚ)
    (h1 : lats ≠ []) (h2 : qmean (lats.map cosRad) ≠ 0) :
    qmean (mkWeight cosRad lats) = 1 := by
  have hlen : (lats.map cosRad).length ≠ 0 := by
    simpa using fun h => h1 (List.eq_nil_of_length_eq_zero (by simpa using h))
  have hlenq : ((lats.map cosRad).length : ℚ) ≠ 0 := Nat.cast_ne_zero.mpr hlen
  have hsum : (lats.map cosRad).sum ≠ 0 := by
    intro h
    exact h2 (by simp [qmean, h])
  unfold mkWeight qmean
  rw [sum_map_div, List.length_map]
  rw [List.length_map] at hlenq
  field_simp [qmean]

/-- Claim C4, witness at the concrete sequence `[1, 3]` with `cosRad = id`. -/
theorem C4_witness : qmean (mkWeight id [1, 3]) = 1 :=
  C4_weight_mean_one id [1, 3] (by decide) (by norm_num [qmean])


/-- Claim C6: `get_lat_name` tries `'lat'` then `'latitude'` in that fixed
priority order against the field's coordinates and fails with the
missing-coordinate error exactly when neither recognized label is present. -/
theorem C6_lat_resolution (F : Field) :
    (get_lat_name F = .error "Couldn't find a latitude coordinate" ↔
      "lat" ∉ F.coords.map Prod.fst ∧ "latitude" ∉ F.coords.map Prod.fst) ∧
    ("lat" ∈ F.coords.map Prod.fst → get_lat_name F = .ok "lat") ∧
    ("lat" ∉ F.coords.map Prod.fst → "latitude" ∈ F.coords.map Prod.fst →
      get_lat_name F = .ok "latitude") := by
  unfold get_lat_name
  by_cases h1 : "lat" ∈ F.coords.map Prod.fst <;>
    by_cases h2 : "latitude" ∈ F.coords.map Prod.fst <;>
      simp [h1, h2]

/-- Claim C6, witness: on a field whose only recognized coordinate is named
`latitude`, resolution falls through `lat` and succeeds with `latitude`. -/
theorem C6_witness : get_lat_name latOnlyField = .ok "latitude" :=
  (C6_lat_resolution latOnlyField).2.2 (by simp [latOnlyField]) (by simp [latOnlyField])

/-- Claim C5, counterexample.  A time-only series (its only axis is `time`)
that carries no latitude coordinate — which is exactly what the reducer
itself produces, since reducing the latitude dimension drops its
coordinate — cannot be passed through the reducer again: the first
re-application already fails with the missing-coordinate error, so applying
the reducer twice does not return the series unchanged. -/
theorem C5_counterexample :
    seriesNoLat.dims = ["time"] ∧
    (global_mean id seriesNoLat).bind (global_mean id)
        = .error "Couldn't find a latitude coordinate" ∧
    (global_mean id seriesNoLat).bind (global_mean id) ≠ .ok seriesNoLat := by
  have herr : global_mean id seriesNoLat
      = .error "Couldn't find a latitude coordinate" := by
    simp [global_mean, get_lat_name, seriesNoLat]
  refine ⟨rfl, ?_, ?_⟩
  · rw [herr]; rfl
  · rw [herr]
    exact fun h => Except.noConfusion h

/-- Claim C5, amended: applying the reducer twice to a time-only series
returns the same series unchanged PROVIDED the series still carries a scalar
latitude coordinate with nonzero cosine weight (the weight then normalizes
to 1, and the mean over the empty set of remaining axes is the identity); a
time-only series with no latitude coordinate is instead rejected with the
missing-coordinate error. -/
theorem C5_amended (cosRad : ℚ → ℚ) (c : ℚ) (F : Field)
    (hdims : F.dims = ["time"])
    (hlat : F.coords.lookup "lat" = some [c])
    (hcos : cosRad c ≠ 0) :
    (global_mean cosRad F).bind (global_mean cosRad) = .ok F := by
  have hmem : "lat" ∈ F.coords.map Prod.fst := lookup_mem_keys F.coords hlat
  have hname : get_lat_name F = .ok "lat" := by simp [get_lat_name, hmem]
  have hw : mkWeight cosRad ((F.coords.lookup "lat").getD []) = [1] := by
    rw [hlat]
    simp [mkWeight, qmean, div_self hcos]
  have hlatdim : "lat" ∉ F.dims := by rw [hdims]; simp
  have hone : global_mean cosRad F = .ok F := by
    rw [global_mean_ok cosRad F "lat" hname, hw, hdims]
    have hfilter : List.filter (fun d => decide (d ≠ "time")) ["time"] = [] := by simp
    rw [hfilter]
    congr 1
    ext1
    · simp [meanOver, mulWeight]
    · simp [meanOver, mulWeight]
    · simp [meanOver, mulWeight]
    · funext idx
      simp [meanOver, mulWeight, meanData, hlatdim]
  rw [hone]
  simpa [Except.bind] using hone

/-- Claim C5, witness: the concrete time-only series that retains the scalar
latitude coordinate 60 passes through the reducer twice unchanged. -/
theorem C5_witness :
    (global_mean id seriesWithLat).bind (global_mean id) = .ok seriesWithLat :=
  C5_amended id 60 seriesWithLat rfl rfl (by norm_num)

/-- Claim C10: the reducer preserves exactly the axis literally named
`time`.  On a field with a resolvable latitude coordinate but no axis named
`time` (e.g. a temporal axis named `year`), `set(ds.dims) - {'time'}` is the
full set of axes, so the reduction succeeds and averages over every axis,
including the temporal one, leaving a zero-dimensional result. -/
theorem C10_year_axis_reduced (cosRad : ℚ → ℚ) (F : Field) (latName : String)
    (hname : get_lat_name F = .ok latName)
    (htime : "time" ∉ F.dims) :
    global_mean cosRad F
        = .ok (meanOver (mulWeight F latName
            (mkWeight cosRad ((F.coords.lookup latName).getD []))) F.dims) ∧
    (meanOver (mulWeight F latName
        (mkWeight cosRad ((F.coords.lookup latName).getD []))) F.dims).dims = [] := by
  have hfilter : F.dims.filter (fun d => decide (d ≠ "time")) = F.dims :=
    List.filter_eq_self.mpr (fun a ha => by
      simp only [decide_eq_true_eq]
      exact fun h => htime (h ▸ ha))
  constructor
  · rw [global_mean_ok cosRad F latName hname, hfilter]
  · simp only [meanOver, mulWeight]
    exact List.filter_eq_nil_iff.mpr (fun a ha => by simp [ha])

/-- Claim C10, witness: on the concrete `(year, lat)` field the reduction
runs over all axes (the reduction list is the full dimension list) and the
result is zero-dimensional. -/
theorem C10_witness :
    global_mean id fieldYearLat
        = .ok (meanOver (mulWeight fieldYearLat "lat"
            (mkWeight id ((fieldYearLat.coords.lookup "lat").getD []))) fieldYearLat.dims) ∧
    (meanOver (mulWeight fieldYearLat "lat"
        (mkWeight id ((fieldYearLat.coords.lookup "lat").getD []))) fieldYearLat.dims).dims = [] :=
  C10_year_axis_reduced id fieldYearLat "lat"
    (by simp [get_lat_name, fieldYearLat]) (by simp [fieldYearLat])

/-- Claim C7: a model with a missing experiment dataset is reported
(`print("Missing experiment for ...")`) and skipped via `continue`, while
the loop completes and produces a result for exactly every model whose
experiments are all present, in order — one model's gap is never fatal to
the batch. -/
theorem C7_missing_experiment_skipped {α β : Type} (process : List α → β)
    (models : List (String × List (Option α))) :
    (dsets_aligned_loop process models).1
        = (models.filter (fun m => !(m.2.any (fun d => d.isNone)))).map
            (fun m => (m.1, process (m.2.filterMap id))) ∧
    (dsets_aligned_loop process models).2
        = (models.filter (fun m => m.2.any (fun d => d.isNone))).map
            (fun m => "Missing experiment for " ++ m.1) := by
  unfold dsets_aligned_loop
  rw [alignStep_foldl]
  simp

/-- Claim C8: each model's anomaly is `ds_anom_one` of that model's own data
alone — model B's data can never reach model A's baseline — so permuting
the processing order permutes the result list correspondingly and leaves
every per-model anomaly identical. -/
theorem C8_baseline_independence (ms ms' : List (String × ModelSeries))
    (hperm : ms.Perm ms') :
    (ds_anom ms).Perm (ds_anom ms') ∧
    ∀ k d, (k, d) ∈ ms →
      (k, ds_anom_one d) ∈ ds_anom ms ∧ (k, ds_anom_one d) ∈ ds_anom ms' := by
  refine ⟨hperm.map _, fun k d hmem => ⟨?_, ?_⟩⟩
  · exact List.mem_map_of_mem _ hmem
  · exact List.mem_map_of_mem _ (hperm.subset hmem)

/-- Claim C8, witness: swapping two concrete models leaves model A's anomaly
result identical and present in both processing orders. -/
theorem C8_witness :
    (ds_anom [("A", runsA), ("B", runsB)]).Perm (ds_anom [("B", runsB), ("A", runsA)]) ∧
    ("A", ds_anom_one runsA) ∈ ds_anom [("A", runsA), ("B", runsB)] ∧
    ("A", ds_anom_one runsA) ∈ ds_anom [("B", runsB), ("A", runsA)] :=
  have h := C8_baseline_independence [("A", runsA), ("B", runsB)]
    [("B", runsB), ("A", runsA)] (List.Perm.swap ("B", runsB) ("A", runsA) [])
  ⟨h.1, (h.2 "A" runsA (by simp)).1, (h.2 "A" runsA (by simp)).2⟩

/-- Claim C9: neither the reducer nor the estimator mutates its input.  In
the explicit-heap model, after `global_mean` the input's backing data array
and latitude coordinate array are unchanged and the returned reference is a
fresh one (the only in-place write is to the reducer's own fresh weight
array); after `calc_ecs` both input series are unchanged and the returned
scalar is the pure function of the inputs' values. -/
theorem C9_no_input_mutation (cosRad : ℚ → ℚ)
    (mulArr : List ℚ → List ℚ → List ℚ) (meanArr : List ℚ → List ℚ)
    (st : Store ℚ) (dataRef latRef : Nat)
    (hd : dataRef < st.length) (hl : latRef < st.length)
    (st2 : Store (Option ℚ)) (tasRef imbRef : Nat)
    (ht : tasRef < st2.length) (hi : imbRef < st2.length) :
    (readArr (global_mean_st cosRad mulArr meanArr st dataRef latRef).1 dataRef
        = readArr st dataRef ∧
     readArr (global_mean_st cosRad mulArr meanArr st dataRef latRef).1 latRef
        = readArr st latRef ∧
     (global_mean_st cosRad mulArr meanArr st dataRef latRef).2 ≠ dataRef ∧
     (global_mean_st cosRad mulArr meanArr st dataRef latRef).2 ≠ latRef) ∧
    (readArr (calc_ecs_st st2 tasRef imbRef).1 tasRef = readArr st2 tasRef ∧
     readArr (calc_ecs_st st2 tasRef imbRef).1 imbRef = readArr st2 imbRef ∧
     (calc_ecs_st st2 tasRef imbRef).2
        = calc_ecs (readArr st2 tasRef) (readArr st2 imbRef)) := by
  constructor
  · simp only [global_mean_st, alloc]
    refine ⟨readArr_gm_chain _ _ _ _ _ _ hd, readArr_gm_chain _ _ _ _ _ _ hl, ?_, ?_⟩
    · simp only [writeArr, List.length_append, List.length_set, List.length_cons,
        List.length_nil]
      omega
    · simp only [writeArr, List.length_append, List.length_set, List.length_cons,
        List.length_nil]
      omega
  · simp only [calc_ecs_st, alloc]
    have hA1 : tasRef < (st2 ++ [(dropna (readArr st2 tasRef)).map some]).length := by
      simp
      omega
    have hA2 : imbRef < (st2 ++ [(dropna (readArr st2 tasRef)).map some]).length := by
      simp
      omega
    have hlen : st2.length < (st2 ++ [(dropna (readArr st2 tasRef)).map some]).length := by
      simp
    refine ⟨?_, ?_, ?_⟩
    · rw [readArr_alloc_lt _ _ _ hA1, readArr_alloc_lt _ _ _ ht]
    · rw [readArr_alloc_lt _ _ _ hA2, readArr_alloc_lt _ _ _ hi]
    · rw [readArr_alloc_lt _ _ _ hlen, readArr_alloc_self, readArr_alloc_self,
        readArr_alloc_lt _ _ _ hi, dropna_map_some, dropna_map_some]
      unfold calc_ecs fitInputs
      cases polyfit1 (dropna (readArr st2 tasRef)) (dropna (readArr st2 imbRef)) <;>
        simp [Except.bind]

/-- Claim C9, witness: a concrete two-array store for the reducer and a
concrete two-series store for the estimator, with identity-shaped array
operations. -/
theorem C9_witness :
    (readArr (global_mean_st id (fun a _ => a) id [[1, 2], [3]] 0 1).1 0
        = readArr [[1, 2], [3]] 0 ∧
     readArr (global_mean_st id (fun a _ => a) id [[1, 2], [3]] 0 1).1 1
        = readArr [[1, 2], [3]] 1 ∧
     (global_mean_st id (fun a _ => a) id [[1, 2], [3]] 0 1).2 ≠ 0 ∧
     (global_mean_st id (fun a _ => a) id [[1, 2], [3]] 0 1).2 ≠ 1) ∧
    (readArr (calc_ecs_st [[some 1], [some 2]] 0 1).1 0
        = readArr [[some 1], [some 2]] 0 ∧
     readArr (calc_ecs_st [[some 1], [some 2]] 0 1).1 1
        = readArr [[some 1], [some 2]] 1 ∧
     (calc_ecs_st [[some 1], [some 2]] 0 1).2
        = calc_ecs (readArr [[some 1], [some 2]] 0)
            (readArr [[some 1], [some 2]] 1)) :=
  C9_no_input_mutation id (fun a _ => a) id [[1, 2], [3]] 0 1
    (by decide) (by decide) [[some 1], [some 2]] 0 1 (by decide) (by decide)
